import Mathlib

/-!
Verification development for the `spectrum` browser-driving library.

Each Python source construct used by the statements below is shallowly
embedded as an executable Lean definition, translated directly from the
corresponding function in `src/spectrum`.  Machine-level concerns that the
statements do not depend on (wall-clock time, real sockets, the filesystem
`mkdir` side effects) are represented by explicit parameters (poll budgets,
frame lists, environment outcomes) while every branch and data computation
follows the Python text.
-/

namespace Spectrum

/-! ## Python-flavoured helpers

`strContains blob marker` is Python's `marker in blob` (substring test).
`alistInsert` is `dict.__setitem__` on an insertion-ordered association
list: replacing a present key keeps its position, a new key is appended.
`alistGet` is `dict.get`/`in`.  `sortedSet` is `tuple(sorted(set(xs)))`.
-/

/-- ASCII case mapping, as Python's `str.lower()` acts on the ASCII header
names, marker strings and HTML samples this code works with. -/
def charLower (c : Char) : Char :=
  if 65 ≤ c.toNat ∧ c.toNat ≤ 90 then Char.ofNat (c.toNat + 32) else c

def pyLower (s : String) : String := ⟨s.data.map charLower⟩

def chPrefix : List Char → List Char → Bool
  | [], _ => true
  | _ :: _, [] => false
  | a :: as, b :: bs => a = b && chPrefix as bs

def chInfix (pat : List Char) : List Char → Bool
  | [] => pat.isEmpty
  | c :: rest => chPrefix pat (c :: rest) || chInfix pat rest

def strContains (blob marker : String) : Bool :=
  chInfix marker.toList blob.toList

def alistGet {α : Type} (l : List (String × α)) (k : String) : Option α :=
  match l with
  | [] => none
  | (k', v) :: rest => if k' = k then some v else alistGet rest k

def alistInsert {α : Type} (l : List (String × α)) (k : String) (v : α) :
    List (String × α) :=
  match l with
  | [] => [(k, v)]
  | (k', v') :: rest =>
      if k' = k then (k, v) :: rest else (k', v') :: alistInsert rest k v

def insertSorted (s : String) : List String → List String
  | [] => [s]
  | x :: xs => if s < x then s :: x :: xs else x :: insertSorted s xs

def sortStrings : List String → List String
  | [] => []
  | x :: xs => insertSorted x (sortStrings xs)

def dedupKeepFirst (seen : List String) : List String → List String
  | [] => []
  | x :: xs =>
      if seen.contains x then dedupKeepFirst seen xs
      else x :: dedupKeepFirst (x :: seen) xs

/-- `tuple(sorted(set(xs)))`: the duplicate-free members in ascending
order. -/
def sortedSet (l : List String) : List String :=
  sortStrings (dedupKeepFirst [] l)

/-! ## Recon detector (`src/spectrum/recon.py`)

The three fixed signature tables, transcribed verbatim, and the pure
classification functions `detect_waf`, `detect_tech`, `detect_captcha`.
-/

def wafHeaderMarkers : List (String × List String) :=
  [ ("perimeterx", ["x-px", "x-perimeterx", "x-px-debug"])
  , ("cloudflare", ["cf-ray", "cf-cache-status", "cf-apo-via"])
  , ("imperva", ["x-iinfo", "x-cdn", "x-cdn-geo", "incap-"])
  , ("akamai", ["akamai", "akamai-ghost", "akamai-grn"])
  , ("sucuri", ["x-sucuri-id", "x-sucuri-cache"])
  , ("fastly", ["x-fastly-request-id", "fastly-debug"])
  , ("cloudfront", ["x-amz-cf-id", "x-amz-cf-pop"])
  , ("aws-waf", ["x-amzn-waf-action"])
  , ("azure-front-door", ["x-azure-ref", "x-fd-int-roxy-purgeid", "x-fd-traffic"])
  , ("f5", ["x-wa-info", "x-cnection", "x-asm", "x-waf-event-info"])
  , ("barracuda", ["barra", "x-barracuda", "bnc"])
  , ("datadome", ["x-datadome"])
  , ("distil", ["x-distil-cs", "x-distil-debug"])
  , ("radware", ["x-sl-compstate", "x-sl-edge", "x-sl-referrer"])
  , ("reblaze", ["x-reblaze", "rbzid"])
  , ("stackpath", ["x-sucuri-id", "x-sucuri-cache", "x-stackpath"])
  , ("stackpath-waf", ["x-stackpath", "spmsg", "sprequestguid"])
  , ("siteground", ["x-proxy-cache", "x-hw", "sg-"])
  , ("varnish-waf", ["x-varnish", "x-cache"]) ]

def wafHtmlMarkers : List (String × List String) :=
  [ ("perimeterx",
      ["captcha.perimeterx.net", "perimeterx", "px-captcha", "px-block",
       "pxBlock", "px-cdn"])
  , ("cloudflare", ["cf-browser-verification", "cloudflare", "/cdn-cgi/"])
  , ("imperva", ["incapsula", "imperva", "x2cap", "incap_ses"])
  , ("datadome", ["datadome", "geo.captcha-delivery.com"])
  , ("distil", ["distil networks", "distil_r_captcha", "distilr", "distilcaptcha"])
  , ("kasada", ["kasada", "kpsdk"])
  , ("radware", ["rbz", "radware", "appwall"])
  , ("reblaze", ["reblaze", "rbz"])
  , ("sucuri", ["sucuri firewall", "sucuri cloudproxy"])
  , ("f5", ["asm", "big-ip", "f5", "x-waf-event-info"])
  , ("modsecurity", ["mod_security", "modsecurity", "modsecurity rules"]) ]

def techHeaderMarkers : List (String × List String) :=
  [ ("wordpress", ["x-powered-by:wordpress", "x-generator:wordpress"])
  , ("shopify", ["x-shopify-", "x-sorting-hat-podid", "x-sorting-hat-shopid"])
  , ("magento", ["x-magento-", "x-ua-compatible:magento"])
  , ("drupal", ["x-generator:drupal", "x-drupal-cache"])
  , ("joomla", ["x-generator:joomla"])
  , ("wix", ["x-wix-request-id"])
  , ("squarespace", ["x-sqsp-cache", "x-squarespace-cache"])
  , ("webflow", ["x-wf-request-id"])
  , ("ghost", ["x-ghost-cache"])
  , ("nextjs", ["x-powered-by:next.js"])
  , ("nuxt", ["x-powered-by:nuxt"])
  , ("express", ["x-powered-by:express"])
  , ("django", ["csrftoken", "x-frame-options:sameorigin"])
  , ("laravel", ["laravel_session"])
  , ("rails", ["x-runtime", "x-rails", "_rails"]) ]

def techHtmlMarkers : List (String × List String) :=
  [ ("wordpress",
      ["wp-content/", "wp-includes/", "wp-json", "xmlrpc.php",
       "content=\"wordpress"])
  , ("shopify",
      ["cdn.shopify.com", "x-shopify-stage", "shopify-section",
       "shopify-buy-button"])
  , ("magento", ["mage/", "magento", "catalog/product/view", "data-mage-init"])
  , ("drupal", ["drupal-settings-json", "drupal", "data-drupal"])
  , ("joomla", ["joomla", "com_content", "content=\"joomla"])
  , ("wix", ["wix.com", "wixsite", "wix-code-sdk"])
  , ("squarespace", ["static.squarespace.com", "squarespace"])
  , ("webflow", ["webflow.com", "data-wf-page", "data-wf-site"])
  , ("ghost", ["ghost.io", "content=\"ghost"])
  , ("nextjs", ["_next/static", "nextjs", "__next_data__"])
  , ("nuxt", ["_nuxt/", "__nuxt", "nuxt"])
  , ("react", ["data-reactroot", "data-reactid"])
  , ("vue", ["data-v-", "id=\"app\""])
  , ("angular", ["ng-version", "ng-app", "ng-controller"])
  , ("svelte", ["svelte", "__svelte", "data-svelte"])
  , ("django", ["csrftoken", "django", "data-csrf"])
  , ("laravel", ["laravel", "csrf-token"])
  , ("rails", ["rails", "csrf-param", "csrf-token"]) ]

def captchaHtmlMarkers : List (String × List String) :=
  [ ("recaptcha",
      ["www.google.com/recaptcha/api.js", "www.recaptcha.net/recaptcha/api.js",
       "g-recaptcha", "grecaptcha", "data-sitekey"])
  , ("hcaptcha",
      ["js.hcaptcha.com/1/api.js", "h-captcha", "hcaptcha", "data-sitekey"])
  , ("turnstile",
      ["challenges.cloudflare.com/turnstile/v0/api.js", "cf-turnstile",
       "turnstile.render"])
  , ("arkose",
      ["client-api.arkoselabs.com", "arkoselabs", "funcaptcha", "fc-token",
       "data-pkey"])
  , ("geetest", ["static.geetest.com", "geetest", "gt4.js", "gt_captcha"])
  , ("friendlycaptcha",
      ["friendlycaptcha", "friendly-challenge",
       "cdn.jsdelivr.net/npm/friendly-challenge"])
  , ("keycaptcha", ["keycaptcha", "keycaptcha.com"])
  , ("honeycaptcha", ["honeycaptcha"])
  , ("textcaptcha", ["textcaptcha"]) ]

def containsAnyMarker (blob : String) (markers : List String) : Bool :=
  markers.any (fun m => strContains blob m)

def tableHits (blob : String) (table : List (String × List String)) :
    List String :=
  table.filterMap (fun e =>
    if containsAnyMarker blob e.2 then some e.1 else none)

/-- `{key.lower(): value for key, value in headers.items()}` — a Python dict
comprehension: lowered keys that collide collapse, last value wins, first
insertion position kept. -/
def pyLowerHeaderDict (headers : List (String × String)) :
    List (String × String) :=
  headers.foldl (fun acc kv => alistInsert acc (pyLower kv.1) kv.2) []

/-- `" ".join(f"{k}:{v}".lower() for k, v in d.items())` -/
def headerBlobOf (d : List (String × String)) : String :=
  String.intercalate " " (d.map (fun kv => pyLower (kv.1 ++ ":" ++ kv.2)))

/-- `detect_waf` (`recon.py` lines 210-224). -/
def detect_waf (headers : List (String × String)) (htmlSample : String) :
    List String :=
  let lowerHeaders := pyLowerHeaderDict headers
  let headerBlob := headerBlobOf lowerHeaders
  let htmlBlob := pyLower htmlSample
  sortedSet (tableHits headerBlob wafHeaderMarkers ++
             tableHits htmlBlob wafHtmlMarkers)

/-- `detect_tech` (`recon.py` lines 227-240).  Note: it joins the raw
(headers-as-given) items, without the per-key lowering dict pass. -/
def detect_tech (headers : List (String × String)) (htmlSample : String) :
    List String :=
  let htmlBlob := pyLower htmlSample
  let headerBlob := headerBlobOf headers
  sortedSet (tableHits htmlBlob techHtmlMarkers ++
             tableHits headerBlob techHeaderMarkers)

/-- `detect_captcha` (`recon.py` lines 243-251).  The `headers` parameter is
present in the Python signature and never read by the body. -/
def detect_captcha (headers : List (String × String)) (htmlSample : String) :
    List String :=
  let htmlBlob := pyLower htmlSample
  sortedSet (tableHits htmlBlob captchaHtmlMarkers)

/-! ## Preflight reconnaissance (`src/spectrum/recon.py` lines 157-207)

`preflight_recon_async` performs one HTTP GET inside a `try` block that
catches `aiohttp.ClientError` and `asyncio.TimeoutError`.  The transport is
abstracted by a `FetchOutcome`: the GET can fail while connecting (no
response at all), fail while the body is being read (the `headers = {...}`
assignment has already run, `await response.text()` raises), or succeed.
`text[:max_html_bytes]` is a Python string slice, so it caps characters. -/

structure ReconReport where
  url : String
  headers : List (String × String)
  htmlSample : String
  wafHits : List String
  techHits : List String
  captchaHits : List String
deriving DecidableEq, Repr

inductive FetchOutcome
  | connectFail
  | bodyFail (headers : List (String × String))
  | ok (headers : List (String × String)) (body : String)

def takeChars (n : Nat) (s : String) : String := ⟨s.data.take n⟩

def maxHtmlBytes : Nat := 200000

def preflight_recon_async (url : String) (maxBytes : Nat)
    (outcome : FetchOutcome) : ReconReport :=
  let captured : List (String × String) × String :=
    match outcome with
    | .connectFail => ([], "")
    | .bodyFail hs => (pyLowerHeaderDict hs, "")
    | .ok hs body => (pyLowerHeaderDict hs, takeChars maxBytes body)
  { url := url
  , headers := captured.1
  , htmlSample := captured.2
  , wafHits := detect_waf captured.1 captured.2
  , techHits := detect_tech captured.1 captured.2
  , captchaHits := detect_captcha captured.1 captured.2 }

/-! ## Strategy registry (`src/spectrum/strategies/registry.py`)

A `Strategy` is identified here by a tag `sid` (object identity, so two
distinct strategy objects may carry the same `name`) and its `name`
attribute.  `merge_strategies` is translated line by line: `ordered` is the
output list, `index` the `Dict[str, int]` of positions; the override map is
an insertion-ordered association list (Python dict iteration order). -/

structure Strategy where
  sid : Nat
  name : String
deriving DecidableEq, Repr

structure MergeState where
  ordered : List Strategy
  index : List (String × Nat)
deriving Repr

/-- The `defaults` / `additions` loop body: skip falsy names, replace in
place when the name is indexed, else register and append. -/
def addNamed (st : MergeState) (s : Strategy) : MergeState :=
  if s.name = "" then st
  else
    match alistGet st.index s.name with
    | some i => ⟨st.ordered.set i s, st.index⟩
    | none => ⟨st.ordered ++ [s], alistInsert st.index s.name st.ordered.length⟩

/-- `{item.name: idx for idx, item in enumerate(ordered)}` — when two items
share a name the later index wins, as in a Python dict comprehension.  The
dict is observed only through key lookup, so it is modelled by an
association list with the same lookup behaviour (the entry for a name is
its last enumerated index). -/
def buildIndexFrom (start : Nat) : List Strategy → List (String × Nat)
  | [] => []
  | s :: rest =>
      let m := buildIndexFrom (start + 1) rest
      match alistGet m s.name with
      | some _ => m
      | none => (s.name, start) :: m

def buildIndex (ordered : List Strategy) : List (String × Nat) :=
  buildIndexFrom 0 ordered

/-- One `overrides.items()` iteration: `None` removes by key and rebuilds
the index; a strategy replaces at the key's position or is appended
registered under the key (not under its own `name`). -/
def applyOverride (st : MergeState) (kv : String × Option Strategy) :
    MergeState :=
  match kv.2 with
  | none =>
      match alistGet st.index kv.1 with
      | some i =>
          let ordered' := st.ordered.eraseIdx i
          ⟨ordered', buildIndex ordered'⟩
      | none => st
  | some s =>
      match alistGet st.index kv.1 with
      | some i => ⟨st.ordered.set i s, st.index⟩
      | none => ⟨st.ordered ++ [s], alistInsert st.index kv.1 st.ordered.length⟩

def merge_strategies (defaults : List Strategy)
    (overrides : List (String × Option Strategy))
    (additions : List Strategy) : List Strategy :=
  let st1 := defaults.foldl addNamed ⟨[], []⟩
  let st2 := overrides.foldl applyOverride st1
  let st3 := additions.foldl addNamed st2
  st3.ordered

/-- `default_strategies()` returns `[ReconStrategy(), PerimeterXStrategy()]`;
their `name` class attributes are `"recon"` and `"perimeterx"`. -/
def default_strategies : List Strategy :=
  [⟨0, "recon"⟩, ⟨1, "perimeterx"⟩]

/-! ## The settings module (`src/spectrum/settings.py`)

Every constant assigned at the top level of the module, in source order.
An access `settings.NAME` with `NAME` outside this list raises
`AttributeError` in Python. -/

def settingsNames : List String :=
  [ "PROFILE_BASE_DIR", "PROFILE_PREFIX", "PATH_SEPARATOR"
  , "WINDOW_SIZE_SEPARATOR", "INSTANCE_ID_LENGTH", "ENDPOINT_TEMPLATE"
  , "REMOTE_DEBUGGING_ADDRESS", "REMOTE_DEBUGGING_PORT_FALLBACK"
  , "FREE_PORT_HOST", "FREE_PORT_EPHEMERAL_PORT"
  , "DEFAULT_WINDOW_SIZE", "DEFAULT_VIEWPORT"
  , "REMOTE_DEBUGGING_PORT_FLAG", "REMOTE_DEBUGGING_ADDRESS_FLAG"
  , "USER_DATA_DIR_FLAG", "WINDOW_SIZE_FLAG", "PROXY_SERVER_FLAG"
  , "DEFAULT_FLAGS", "LINUX_EXTRA_FLAGS"
  , "PLATFORM_DARWIN", "PLATFORM_LINUX_PREFIX"
  , "CHROME_PATHS_DARWIN", "CHROME_PATHS_LINUX"
  , "SHUTDOWN_TIMEOUT_SECONDS", "ERROR_CHROME_NOT_FOUND" ]

def settingsHasAttr (n : String) : Bool := settingsNames.contains n

/-! ## Browser configuration (`src/spectrum/config.py`)

`BrowserConfig` is a frozen dataclass with exactly the fields below; its
declared field names are listed separately because `BrowserManager.launch`
(`sync_spectrum/manager.py` line 24, `async_spectrum/manager.py` line 24)
reads `config.strategy_overrides`, which is not one of them. -/

structure BrowserConfig where
  browser_path : Option String := none
  profile_dir : Option String := none
  proxy : Option String := none
  window_size : Option (Nat × Nat) := some (1280, 800)
  viewport : Option (Nat × Nat) := none
  remote_debugging_port : Option Nat := none
  extra_flags : List String := []
  navigation_strategies : List Strategy := []

def configFieldNames : List String :=
  [ "browser_path", "profile_dir", "proxy", "window_size", "viewport"
  , "remote_debugging_port", "extra_flags", "navigation_strategies" ]

/-! ## CDP wire data

JSON values as delivered on the debugger WebSocket, and one incoming frame
as the instance code reads it: `message.get("id")`, `message.get("method")`,
`"error" in message`, `message.get("result", {})`.  An incoming raw string
may also be empty (`if not raw: continue`), modelled as `none` in a
`List (Option Frame)`. -/

inductive Json where
  | obj (fields : List (String × Json))
  | str (s : String)
  | num (n : Int)
  | bool (b : Bool)
  | null
deriving Repr

/-- `dict.get(k)`; the frames this development evaluates carry objects in
the positions the code indexes into. -/
def Json.getField : Json → String → Option Json
  | .obj fs, k => alistGet fs k
  | _, _ => none

def strStartsWith (s pre : String) : Bool :=
  chPrefix pre.toList s.toList

structure Frame where
  idField : Option Int := none
  methodField : Option String := none
  errorField : Option Json := none
  resultField : Option Json := none
  paramsField : Option Json := none
deriving Repr

/-- Python truthiness on a JSON value (`if not x`). -/
def jsonTruthy : Json → Bool
  | .obj fs => !fs.isEmpty
  | .str s => decide (s ≠ "")
  | .num n => decide (n ≠ 0)
  | .bool b => b
  | .null => false

inductive CdpErr where
  | timeout
  | protocolError (payload : Json)
deriving Repr

/-! ## Protocol transport (`sync_spectrum/instance.py` lines 354-408)

The receive loop of `_send_cdp_command` / `_send_cdp_command_on_ws`: skip
empty raws, skip frames whose `id` differs from the request id (stale
replies and event notifications carry another or no `id`), fail on an
`error` member, else return `result` defaulted to `{}`.  An exhausted frame
list stands for the socket timing out on `recv`. -/

def recvMatching (mid : Int) :
    List (Option Frame) → Except CdpErr (Json × List (Option Frame))
  | [] => .error .timeout
  | none :: rest => recvMatching mid rest
  | some f :: rest =>
      if f.idField = some mid then
        match f.errorField with
        | some e => .error (.protocolError e)
        | none => .ok (f.resultField.getD (Json.obj []), rest)
      else recvMatching mid rest

/-- `_send_cdp_command_on_ws`: sends `{id: messageId, method, params}` on an
already-open socket and returns the matched result together with
`message_id + 1` and the frames not yet consumed. -/
def send_cdp_command_on_ws (frames : List (Option Frame)) (messageId : Int)
    (method : String) :
    Except CdpErr (Json × Int × List (Option Frame)) :=
  match recvMatching messageId frames with
  | .error e => .error e
  | .ok (r, rest) => .ok (r, messageId + 1, rest)

/-- The reply `send_cdp_command_on_ws` yields, without the id/frame
threading. -/
def replyOf (frames : List (Option Frame)) (messageId : Int)
    (method : String) : Except CdpErr Json :=
  match send_cdp_command_on_ws frames messageId method with
  | .error e => .error e
  | .ok (r, _, _) => .ok r

/-- A command sequence on one socket as `content` runs it: `message_id = 1`,
each `_send_cdp_command_on_ws` call threading the returned id into the next
call.  Returns the `(id, method)` envelopes actually sent and the collected
results. -/
def runSession (frames : List (Option Frame)) (messageId : Int) :
    List String → List (Int × String) × Except CdpErr (List Json)
  | [] => ([], .ok [])
  | m :: ms =>
      match send_cdp_command_on_ws frames messageId m with
      | .error e => ([(messageId, m)], .error e)
      | .ok (r, messageId', frames') =>
          let next := runSession frames' messageId' ms
          ((messageId, m) :: next.1,
           match next.2 with
           | .error e => .error e
           | .ok rs => .ok (r :: rs))

/-! ## Instance lifecycle traces (`sync_spectrum/instance.py`,
`async_spectrum/instance.py`)

Each operation is embedded as a function from an environment describing
what the subprocess/network would deliver to the pair of the observable
event trace and the Python outcome.  Wall-clock deadlines become explicit
iteration budgets in the environment (`pollStatuses`, `domIters`,
`timeLeft` fields); everything else follows the Python statement by
statement, including every `settings.<NAME>` attribute access, which fails
with `AttributeError` exactly when `NAME` is not defined in
`src/spectrum/settings.py`. -/

inductive Event where
  | spawnProcess
  | httpGet (path : String)
  | wsConnect
  | wsSend (id : Int) (method : String)
  | sleepPoll
deriving DecidableEq, Repr

inductive PyErr where
  | valueError (msg : String)
  | attributeError (attr : String)
  | timeoutError (msg : String)
  | runtimeError (msg : String)
deriving DecidableEq, Repr

/-- Writer-with-exceptions sequencing for `(trace, outcome)` pairs. -/
def thenRun {α β : Type} (x : List Event × Except PyErr α)
    (f : α → List Event × Except PyErr β) : List Event × Except PyErr β :=
  match x with
  | (evs, .error e) => (evs, .error e)
  | (evs, .ok a) =>
      let y := f a
      (evs ++ y.1, y.2)

def cdpToPyErr : CdpErr → PyErr
  | .timeout => .timeoutError "WebSocket receive timed out"
  | .protocolError _ => .runtimeError "CDP command returned an error"

/-- One `/json/list` target descriptor (`id`, `targetId`,
`webSocketDebuggerUrl` members). -/
structure TargetEntry where
  idField : Option String := none
  targetIdField : Option String := none
  wsUrlField : Option String := none
deriving Repr

/-- Python `a or b` on two optional strings (empty string is falsy). -/
def pyOrStr (a b : Option String) : Option String :=
  match a with
  | some s => if s = "" then b else some s
  | none => b

/-- One iteration of the `_wait_for_dom_ready` while loop: the frames its
`DOM.getDocument` socket delivers, whether wall-clock time remains after
the probe, and the frames the fallback `Page.loadEventFired` socket
delivers. -/
structure DomIter where
  docFrames : List (Option Frame) := []
  timeLeft : Bool := true
  loadFrames : List (Option Frame) := []
deriving Repr

structure CdpEnv where
  processRunning : Bool := false
  pollStatuses : List (Option Nat) := []
  versionWsUrl : Option String := none
  browserFrames : List (Option Frame) := []
  targets : List TargetEntry := []
  domIters : List DomIter := []
  contentTimeLeft : Bool := true
  idleFrames : List (Option Frame) := []
  contentPolls : List (List (Option Frame)) := []
  contentFrames : List (Option Frame) := []
  outerFrames : List (Option Frame) := []
deriving Repr

/-- `start` (both bindings): spawn unless the process is already alive. -/
def startTrace (env : CdpEnv) : List Event × Except PyErr Unit :=
  if env.processRunning then ([], .ok ()) else ([.spawnProcess], .ok ())

/-- The polling loop of the blocking `_wait_for_cdp`, entered only after
`settings.STARTUP_TIMEOUT_SECONDS` was read: each iteration GETs
`/json/version` (`none` = `URLError`), returns on HTTP 200, else sleeps
`settings.STARTUP_POLL_INTERVAL_SECONDS`; an exhausted budget is the
deadline elapsing. -/
def cdpPollLoop : List (Option Nat) → List Event × Except PyErr Unit
  | [] => ([], .error (.timeoutError "CDP endpoint did not become available"))
  | st :: rest =>
      match st with
      | some 200 => ([.httpGet "/json/version"], .ok ())
      | _ =>
          if settingsHasAttr "STARTUP_POLL_INTERVAL_SECONDS" then
            let next := cdpPollLoop rest
            (.httpGet "/json/version" :: .sleepPoll :: next.1, next.2)
          else
            ([.httpGet "/json/version"],
             .error (.attributeError "STARTUP_POLL_INTERVAL_SECONDS"))

/-- `_wait_for_cdp` (sync, lines 146-163): its first statement evaluates
`settings.STARTUP_TIMEOUT_SECONDS`. -/
def wait_for_cdp_sync (env : CdpEnv) : List Event × Except PyErr Unit :=
  if settingsHasAttr "STARTUP_TIMEOUT_SECONDS" then cdpPollLoop env.pollStatuses
  else ([], .error (.attributeError "STARTUP_TIMEOUT_SECONDS"))

/-- `_wait_for_cdp` (async, lines 137-156): reads
`settings.STARTUP_TIMEOUT_SECONDS` for the deadline, then
`settings.STARTUP_POLL_INTERVAL_SECONDS` for the `ClientTimeout`, before
entering the same poll loop. -/
def wait_for_cdp_async (env : CdpEnv) : List Event × Except PyErr Unit :=
  if settingsHasAttr "STARTUP_TIMEOUT_SECONDS" then
    if settingsHasAttr "STARTUP_POLL_INTERVAL_SECONDS" then
      cdpPollLoop env.pollStatuses
    else ([], .error (.attributeError "STARTUP_POLL_INTERVAL_SECONDS"))
  else ([], .error (.attributeError "STARTUP_TIMEOUT_SECONDS"))

/-- `_browser_websocket_url`: GET `/json/version`, require a truthy
`webSocketDebuggerUrl`. -/
def browser_websocket_url (env : CdpEnv) : List Event × Except PyErr String :=
  ([.httpGet "/json/version"],
   match pyOrStr env.versionWsUrl none with
   | some u => .ok u
   | none =>
       .error (.runtimeError "Missing webSocketDebuggerUrl from CDP version endpoint"))

/-- `_target_websocket_url`: GET `/json/list`, find the entry whose
`id` or `targetId` equals the requested target, require its socket URL. -/
def target_websocket_url (env : CdpEnv) (targetId : String) :
    List Event × Except PyErr String :=
  ([.httpGet "/json/list"], findTarget env.targets)
where findTarget : List TargetEntry → Except PyErr String
  | [] => .error (.runtimeError "Target not found")
  | e :: rest =>
      if pyOrStr e.idField e.targetIdField = some targetId then
        match pyOrStr e.wsUrlField none with
        | some u => .ok u
        | none => .error (.runtimeError "Missing webSocketDebuggerUrl for target")
      else findTarget rest

/-- `_send_cdp_command` (fresh socket per call, sync lines 354-380 and
async lines 298-322): `create_connection` /`websockets.connect` evaluates
`settings.WEBSOCKET_TIMEOUT_SECONDS` before any I/O; the envelope id is 1
on the fresh socket. -/
def send_cdp_command (frames : List (Option Frame)) (method : String) :
    List Event × Except PyErr Json :=
  if settingsHasAttr "WEBSOCKET_TIMEOUT_SECONDS" then
    ([.wsConnect, .wsSend 1 method],
     match replyOf frames 1 method with
     | .error e => .error (cdpToPyErr e)
     | .ok r => .ok r)
  else ([], .error (.attributeError "WEBSOCKET_TIMEOUT_SECONDS"))

/-- `goto` (sync lines 67-86 / async lines 67-86, which share this exact
statement sequence): reject empty URLs, start, wait for CDP, resolve the
browser socket, issue `Target.createTarget`.  The two bindings differ only
in their `_wait_for_cdp` and `_browser_websocket_url` helpers, passed in
here. -/
def gotoTrace (waitForCdp : CdpEnv → List Event × Except PyErr Unit)
    (browserWsUrl : CdpEnv → List Event × Except PyErr String)
    (env : CdpEnv) (url : String) : List Event × Except PyErr Json :=
  if url = "" then ([], .error (.valueError "url is required"))
  else
    thenRun (startTrace env) (fun _ =>
      thenRun (waitForCdp env) (fun _ =>
        thenRun (browserWsUrl env) (fun _ =>
          send_cdp_command env.browserFrames "Target.createTarget")))

def goto_sync (env : CdpEnv) (url : String) : List Event × Except PyErr Json :=
  gotoTrace wait_for_cdp_sync browser_websocket_url env url

/-- `root = result.get("root", {}); root.get("documentURL")` -/
def documentURLOf (result : Json) : Option String :=
  match (result.getField "root").getD (Json.obj []) |>.getField "documentURL" with
  | some (.str s) => some s
  | _ => none

/-- `_document_url_ready`: truthy URL, not `about:blank`, and a prefix
match of the expected URL when one was given. -/
def document_url_ready (docUrl : Option String) (expectedUrl : Option String) :
    Bool :=
  match docUrl with
  | none => false
  | some u =>
      if u = "" then false
      else if u = "about:blank" then false
      else
        match expectedUrl with
        | some exp => if exp = "" then true else strStartsWith u exp
        | none => true

/-- `_wait_for_page_load_event` scan: `Page.enable` was sent with id 1;
discard the id-1 acknowledgement (raising on an `error` member), return on
a `Page.loadEventFired` event, time out when the frames are exhausted. -/
def pageLoadScan : List (Option Frame) → Except PyErr Unit
  | [] => .error (.timeoutError "Timed out waiting for Page.loadEventFired")
  | none :: rest => pageLoadScan rest
  | some f :: rest =>
      if f.idField = some 1 then
        match f.errorField with
        | some _ => .error (.runtimeError "CDP command returned an error")
        | none => pageLoadScan rest
      else if f.methodField = some "Page.loadEventFired" then .ok ()
      else pageLoadScan rest

/-- `_wait_for_page_load_event` (sync): opens a socket
(`settings.WEBSOCKET_TIMEOUT_SECONDS`), sends `Page.enable`, scans. -/
def wait_for_page_load_event (frames : List (Option Frame)) :
    List Event × Except PyErr Unit :=
  if settingsHasAttr "WEBSOCKET_TIMEOUT_SECONDS" then
    ([.wsConnect, .wsSend 1 "Page.enable"], pageLoadScan frames)
  else ([], .error (.attributeError "WEBSOCKET_TIMEOUT_SECONDS"))

/-- The `_wait_for_dom_ready` while loop (sync lines 165-182): probe the
document URL over a fresh socket, return when ready, fall back to the
load-event wait with the remaining time, swallowing only its timeout. -/
def domReadyLoop (expectedUrl : Option String) :
    List DomIter → List Event × Except PyErr Unit
  | [] => ([], .ok ())
  | it :: rest =>
      thenRun (send_cdp_command it.docFrames "DOM.getDocument") (fun doc =>
        if document_url_ready (documentURLOf doc) expectedUrl then ([], .ok ())
        else if ¬ it.timeLeft then ([], .ok ())
        else
          match wait_for_page_load_event it.loadFrames with
          | (evs, .error (.timeoutError _)) => (evs, .ok ())
          | (evs, .error e) => (evs, .error e)
          | (evs, .ok ()) =>
              let next := domReadyLoop expectedUrl rest
              (evs ++ next.1, next.2))

def wait_for_dom_ready (env : CdpEnv) (expectedUrl : Option String) :
    List Event × Except PyErr Unit :=
  if settingsHasAttr "PAGE_LOAD_TIMEOUT_SECONDS" then
    domReadyLoop expectedUrl env.domIters
  else ([], .error (.attributeError "PAGE_LOAD_TIMEOUT_SECONDS"))

/-- `_wait_for_network_idle` scan after `Page.enable` and
`Page.setLifecycleEventsEnabled` succeeded on the shared socket: wait for a
`Page.lifecycleEvent` whose `params.name` is `"networkIdle"`. -/
def networkIdleScan : List (Option Frame) → Except PyErr Unit
  | [] => .error (.timeoutError "Timed out waiting for Page.lifecycleEvent networkIdle")
  | none :: rest => networkIdleScan rest
  | some f :: rest =>
      if f.methodField = some "Page.lifecycleEvent" then
        match (f.paramsField.getD (Json.obj [])).getField "name" with
        | some (.str "networkIdle") => .ok ()
        | _ => networkIdleScan rest
      else networkIdleScan rest

/-- `_wait_for_network_idle` (sync lines 267-313): open a socket
(`settings.WEBSOCKET_TIMEOUT_SECONDS`), enable the Page domain and
lifecycle events over `_send_cdp_command_on_ws`, then scan. -/
def wait_for_network_idle (frames : List (Option Frame)) :
    List Event × Except PyErr Unit :=
  if settingsHasAttr "WEBSOCKET_TIMEOUT_SECONDS" then
    match send_cdp_command_on_ws frames 1 "Page.enable" with
    | .error e => ([.wsConnect, .wsSend 1 "Page.enable"], .error (cdpToPyErr e))
    | .ok (_, mid2, fs2) =>
        match send_cdp_command_on_ws fs2 mid2 "Page.setLifecycleEventsEnabled" with
        | .error e =>
            ([.wsConnect, .wsSend 1 "Page.enable",
              .wsSend mid2 "Page.setLifecycleEventsEnabled"], .error (cdpToPyErr e))
        | .ok (_, _, fs3) =>
            ([.wsConnect, .wsSend 1 "Page.enable",
              .wsSend mid2 "Page.setLifecycleEventsEnabled"], networkIdleScan fs3)
  else ([], .error (.attributeError "WEBSOCKET_TIMEOUT_SECONDS"))

/-- `_wait_for_content_ready` (sync lines 184-199): no-op without an
expected URL, else one bounded network-idle wait whose timeout is
swallowed. -/
def wait_for_content_ready_sync (env : CdpEnv) (expectedUrl : Option String) :
    List Event × Except PyErr Unit :=
  if (expectedUrl.getD "") = "" then ([], .ok ())
  else if settingsHasAttr "PAGE_LOAD_TIMEOUT_SECONDS" then
    if ¬ env.contentTimeLeft then ([], .ok ())
    else
      match wait_for_network_idle env.idleFrames with
      | (evs, .error (.timeoutError _)) => (evs, .ok ())
      | other => other
  else ([], .error (.attributeError "PAGE_LOAD_TIMEOUT_SECONDS"))

/-- `root = document.get("root", {}); node_id = root.get("nodeId");
if not node_id: ...` -/
def nodeIdTruthy (document : Json) : Bool :=
  match ((document.getField "root").getD (Json.obj [])).getField "nodeId" with
  | some v => jsonTruthy v
  | none => false

/-- The two-command sequence `content` runs on one open socket
(sync lines 101-129): `DOM.getDocument` then `DOM.getOuterHTML`, with the
node-id and `outerHTML is None` checks. -/
def contentCommands (frames : List (Option Frame)) :
    List Event × Except PyErr Json :=
  match send_cdp_command_on_ws frames 1 "DOM.getDocument" with
  | .error e => ([.wsConnect, .wsSend 1 "DOM.getDocument"], .error (cdpToPyErr e))
  | .ok (document, mid2, fs2) =>
      if ¬ nodeIdTruthy document then
        ([.wsConnect, .wsSend 1 "DOM.getDocument"],
         .error (.runtimeError "Missing document node id"))
      else
        match send_cdp_command_on_ws fs2 mid2 "DOM.getOuterHTML" with
        | .error e =>
            ([.wsConnect, .wsSend 1 "DOM.getDocument",
              .wsSend mid2 "DOM.getOuterHTML"], .error (cdpToPyErr e))
        | .ok (result, _, _) =>
            ([.wsConnect, .wsSend 1 "DOM.getDocument",
              .wsSend mid2 "DOM.getOuterHTML"],
             match result.getField "outerHTML" with
             | none => .error (.runtimeError "Missing page content result")
             | some v => .ok v)

/-- `content` (sync property, lines 88-129). -/
def content_sync (env : CdpEnv) (currentTargetId currentUrl : Option String) :
    List Event × Except PyErr Json :=
  if (currentTargetId.getD "") = "" then
    ([], .error (.runtimeError "No current target; call goto() first"))
  else
    thenRun (startTrace env) (fun _ =>
      thenRun (wait_for_cdp_sync env) (fun _ =>
        thenRun (target_websocket_url env (currentTargetId.getD "")) (fun _ =>
          thenRun (wait_for_dom_ready env currentUrl) (fun _ =>
            thenRun (wait_for_content_ready_sync env currentUrl) (fun _ =>
              if settingsHasAttr "WEBSOCKET_TIMEOUT_SECONDS" then
                contentCommands env.contentFrames
              else ([], .error (.attributeError "WEBSOCKET_TIMEOUT_SECONDS")))))))

/-- The async `_browser_websocket_url` (lines 255-271) and
`_target_websocket_url` (lines 273-296) build an `aiohttp.ClientTimeout`
from `settings.WEBSOCKET_TIMEOUT_SECONDS` before the GET. -/
def browser_websocket_url_async (env : CdpEnv) :
    List Event × Except PyErr String :=
  if settingsHasAttr "WEBSOCKET_TIMEOUT_SECONDS" then browser_websocket_url env
  else ([], .error (.attributeError "WEBSOCKET_TIMEOUT_SECONDS"))

def target_websocket_url_async (env : CdpEnv) (targetId : String) :
    List Event × Except PyErr String :=
  if settingsHasAttr "WEBSOCKET_TIMEOUT_SECONDS" then
    target_websocket_url env targetId
  else ([], .error (.attributeError "WEBSOCKET_TIMEOUT_SECONDS"))

def goto_async (env : CdpEnv) (url : String) : List Event × Except PyErr Json :=
  gotoTrace wait_for_cdp_async browser_websocket_url_async env url

/-- The async `_wait_for_content_ready` loop (lines 177-191): poll the
document URL, done when it prefix-matches the expected URL and is not
`about:blank`, else sleep `settings.STARTUP_POLL_INTERVAL_SECONDS`; the
deadline elapsing ends the loop without error. -/
def contentReadyPollLoop (expectedUrl : String) :
    List (List (Option Frame)) → List Event × Except PyErr Unit
  | [] => ([], .ok ())
  | fs :: rest =>
      thenRun (send_cdp_command fs "DOM.getDocument") (fun doc =>
        let ready :=
          match documentURLOf doc with
          | some u => strStartsWith u expectedUrl && decide (u ≠ "about:blank")
          | none => false
        if ready then ([], .ok ())
        else if settingsHasAttr "STARTUP_POLL_INTERVAL_SECONDS" then
          let next := contentReadyPollLoop expectedUrl rest
          (.sleepPoll :: next.1, next.2)
        else ([], .error (.attributeError "STARTUP_POLL_INTERVAL_SECONDS")))

def wait_for_content_ready_async (env : CdpEnv) (expectedUrl : Option String) :
    List Event × Except PyErr Unit :=
  if (expectedUrl.getD "") = "" then ([], .ok ())
  else if settingsHasAttr "PAGE_LOAD_TIMEOUT_SECONDS" then
    contentReadyPollLoop (expectedUrl.getD "") env.contentPolls
  else ([], .error (.attributeError "PAGE_LOAD_TIMEOUT_SECONDS"))

/-- `content` (async method, lines 88-121): the two DOM commands each open
a fresh socket via `_send_cdp_command`. -/
def content_async (env : CdpEnv) (currentTargetId currentUrl : Option String) :
    List Event × Except PyErr Json :=
  if (currentTargetId.getD "") = "" then
    ([], .error (.runtimeError "No current target; call goto() first"))
  else
    thenRun (startTrace env) (fun _ =>
      thenRun (wait_for_cdp_async env) (fun _ =>
        thenRun (target_websocket_url_async env (currentTargetId.getD "")) (fun _ =>
          thenRun (wait_for_dom_ready env currentUrl) (fun _ =>
            thenRun (wait_for_content_ready_async env currentUrl) (fun _ =>
              thenRun (send_cdp_command env.contentFrames "DOM.getDocument") (fun document =>
                if ¬ nodeIdTruthy document then
                  ([], .error (.runtimeError "Missing document node id"))
                else
                  thenRun (send_cdp_command env.outerFrames "DOM.getOuterHTML") (fun result =>
                    ([],
                     match result.getField "outerHTML" with
                     | none => .error (.runtimeError "Missing page content result")
                     | some v => .ok v))))))))

/-! ## Profile directory resolution (`src/spectrum/runtime.py` lines 9-28;
`src/spectrum/instance.py` lines 76-101 is the same logic verbatim)

POSIX paths as `pathlib.PurePosixPath` renders them: constructing a path
drops empty and `"."` components but keeps `".."`; `str()` joins the parts.
The `mkdir` side effect returns no value and is not modelled.  Settings
used: `PROFILE_BASE_DIR = "/tmp"`, `PATH_SEPARATOR = "/"`,
`PROFILE_PREFIX = "spectrum-profile"`. -/

structure PyPath where
  absolute : Bool
  segs : List String
deriving DecidableEq, Repr

/-- Split on `'/'` (what `s.splitOn "/"` computes for this separator). -/
def splitSlash (s : String) : List String := go [] s.data
where go (cur : List Char) : List Char → List String
  | [] => [⟨cur.reverse⟩]
  | c :: rest => if c = '/' then ⟨cur.reverse⟩ :: go [] rest else go (c :: cur) rest

def parsePath (s : String) : PyPath :=
  { absolute := strStartsWith s "/"
  , segs := (splitSlash s).filter (fun p => decide (p ≠ "") && decide (p ≠ ".")) }

def pathStr (p : PyPath) : String :=
  if p.absolute then "/" ++ String.intercalate "/" p.segs
  else if p.segs.isEmpty then "." else String.intercalate "/" p.segs

/-- `Path.name`: the final component, `""` for a bare root. -/
def pathName (p : PyPath) : String := (p.segs.getLast?).getD ""

/-- `base / name` for a single, slash-free component (pathlib ignores an
empty argument). -/
def pathChild (base : PyPath) (seg : String) : PyPath :=
  if seg = "" then base else ⟨base.absolute, base.segs ++ [seg]⟩

def PROFILE_BASE_DIR : String := "/tmp"

def resolve_profile_dir (profileDir : Option String) (instanceId : String) :
    String :=
  match profileDir with
  | some p =>
      if p = "" then
        pathStr (pathChild (parsePath PROFILE_BASE_DIR)
          ("spectrum-profile-" ++ instanceId))
      else
        let candidate := parsePath p
        let candidateValue := pathStr candidate
        if strStartsWith candidateValue (PROFILE_BASE_DIR ++ "/")
            || candidateValue = PROFILE_BASE_DIR then
          candidateValue
        else
          pathStr (pathChild (parsePath PROFILE_BASE_DIR) (pathName candidate))
  | none =>
      pathStr (pathChild (parsePath PROFILE_BASE_DIR)
        ("spectrum-profile-" ++ instanceId))

/-- Lexical resolution of `".."` components in an absolute path's
segments (at the root `".."` stays at the root). -/
def resolveDots (segs : List String) : List String :=
  segs.foldl (fun acc s => if s = ".." then acc.dropLast else acc ++ [s]) []

/-- After resolving `".."` components, the path is `/tmp` itself or
strictly under it. -/
def staysUnderProfileBase (s : String) : Bool :=
  let p := parsePath s
  p.absolute &&
    match resolveDots p.segs with
    | "tmp" :: _ => true
    | _ => false

/-! ## Recon strategy dispatch (`src/spectrum/strategies/recon.py`)

`after_navigation` (sync, lines 42-56) with the two handlers
`_handle_captcha` (lines 100-121) and `_handle_waf` (lines 77-98).  The
rendered page's outer HTML is delivered by `_fetch_html_sync`, whose
network result (`None` when the port or node id is unavailable) enters
here as the `htmlSample` argument.  Handler factories are identified by
the vendor names they are registered under; the default registration is
`{"perimeterx": PerimeterXStrategy}` for WAFs and `{}` for CAPTCHAs.
A raising outcome is preceded by the best-effort `Browser.close` call of
`_close_browser_sync`. -/

inductive NavOutcome where
  | ok
  | handled (vendor : String)
  | banRaised (vendor : String)
  | captchaRaised (vendor : String)
deriving DecidableEq, Repr

/-- `_strategy_already_registered`: a same-named sibling in
`context.config.navigation_strategies`, the running strategy object itself
(`strategy is not self`) excluded. -/
def strategy_already_registered (cfgStrategies : List Strategy)
    (selfSid : Nat) (n : String) : Bool :=
  cfgStrategies.any (fun s => decide (s.name = n) && decide (s.sid ≠ selfSid))

def wafDispatchLoop (cfgStrategies : List Strategy) (selfSid : Nat)
    (wafFactories : List String) : List String → NavOutcome
  | [] => .ok
  | n :: rest =>
      if strategy_already_registered cfgStrategies selfSid n then
        wafDispatchLoop cfgStrategies selfSid wafFactories rest
      else if wafFactories.contains n then .handled n
      else .banRaised n

def handle_waf (cfgStrategies : List Strategy) (selfSid : Nat)
    (wafFactories : List String) (report : ReconReport)
    (htmlSample : String) : NavOutcome :=
  let htmlWafHits := detect_waf [] htmlSample
  if htmlWafHits.isEmpty then .ok
  else
    let wafHits := sortedSet (report.wafHits ++ htmlWafHits)
    if wafHits.isEmpty then .ok
    else wafDispatchLoop cfgStrategies selfSid wafFactories htmlWafHits

def captchaDispatchLoop (cfgStrategies : List Strategy) (selfSid : Nat)
    (captchaFactories : List String) : List String → NavOutcome
  | [] => .ok
  | n :: rest =>
      if strategy_already_registered cfgStrategies selfSid n then
        captchaDispatchLoop cfgStrategies selfSid captchaFactories rest
      else if captchaFactories.contains n then .handled n
      else .captchaRaised n

def handle_captcha (cfgStrategies : List Strategy) (selfSid : Nat)
    (captchaFactories : List String) (report : ReconReport)
    (htmlSample : String) : NavOutcome :=
  let htmlCaptchaHits := detect_captcha [] htmlSample
  if htmlCaptchaHits.isEmpty then .ok
  else
    let captchaHits := sortedSet (report.captchaHits ++ htmlCaptchaHits)
    if captchaHits.isEmpty then .ok
    else captchaDispatchLoop cfgStrategies selfSid captchaFactories htmlCaptchaHits

inductive AfterNav where
  | skipped
  | ran (captchaPhase : NavOutcome) (wafPhase : Option NavOutcome)
deriving DecidableEq, Repr

/-- `after_navigation` (sync): return early without a target or when the
HTML fetch yields `None`; else run the CAPTCHA handler and, unless it
raised, the WAF handler. -/
def after_navigation_core (targetId : Option String) (report : ReconReport)
    (htmlSample : Option String) (cfgStrategies : List Strategy)
    (selfSid : Nat) (wafFactories captchaFactories : List String) : AfterNav :=
  if (targetId.getD "") = "" then .skipped
  else
    match htmlSample with
    | none => .skipped
    | some html =>
        match handle_captcha cfgStrategies selfSid captchaFactories report html with
        | .captchaRaised n => .ran (.captchaRaised n) none
        | c =>
            .ran c
              (some (handle_waf cfgStrategies selfSid wafFactories report html))

/-! ## Manager launch (`sync_spectrum/manager.py` lines 19-31,
`async_spectrum/manager.py` lines 19-31)

`launch` merges `default_strategies()` with `config.strategy_overrides`
and `config.navigation_strategies`.  `BrowserConfig` declares no
`strategy_overrides` field (see `configFieldNames`), so the attribute
lookup raises `AttributeError`; the lookup result is therefore `none` for
every configuration. -/

def configStrategyOverrides (c : BrowserConfig) :
    Option (List (String × Option Strategy)) := none

def launch_strategies (c : BrowserConfig) : Except PyErr (List Strategy) :=
  match configStrategyOverrides c with
  | none => .error (.attributeError "strategy_overrides")
  | some ov => .ok (merge_strategies default_strategies ov c.navigation_strategies)

/-! ## Specification-side auxiliary notions

Used only to state and prove properties; not part of the embedding. -/

/-- `n` consecutive integers starting at `mid`. -/
def consecutiveFrom (mid : Int) : Nat → List Int
  | 0 => []
  | n + 1 => mid :: consecutiveFrom (mid + 1) n

/-- A uniform view of the three `merge_strategies` phases: each processed
entry either writes a strategy or deletes a name. -/
inductive MergeOp where
  | write (s : Strategy)
  | del (k : String)
deriving DecidableEq, Repr

def opStep (st : MergeState) : MergeOp → MergeState
  | .write s =>
      match alistGet st.index s.name with
      | some i => ⟨st.ordered.set i s, st.index⟩
      | none => ⟨st.ordered ++ [s], alistInsert st.index s.name st.ordered.length⟩
  | .del k =>
      match alistGet st.index k with
      | some i =>
          let ordered' := st.ordered.eraseIdx i
          ⟨ordered', buildIndex ordered'⟩
      | none => st

/-- The strategies written for name `n` by a list of merge operations, in
order. -/
def opsWrites (ops : List MergeOp) (n : String) : List Strategy :=
  ops.filterMap (fun op =>
    match op with
    | .write s => if s.name = n then some s else none
    | .del _ => none)

/-- The operation sequence a `merge_strategies` call processes, when every
override binding carries its key as the bound strategy's name: defaults
and additions with falsy names are skipped. -/
def opsOf (defaults : List Strategy) (overrides : List (String × Option Strategy))
    (additions : List Strategy) : List MergeOp :=
  defaults.filterMap (fun s => if s.name = "" then none else some (.write s)) ++
  overrides.map (fun kv =>
    match kv.2 with
    | some s => MergeOp.write s
    | none => MergeOp.del kv.1) ++
  additions.filterMap (fun s => if s.name = "" then none else some (.write s))

/-- The strategies written for name `n` across the three phases of a
`merge_strategies` call, in processing order: named defaults, override
bindings for key `n`, named additions. -/
def writesFor (defaults : List Strategy)
    (overrides : List (String × Option Strategy))
    (additions : List Strategy) (n : String) : List Strategy :=
  (if n = "" then [] else defaults.filter (fun s => decide (s.name = n))) ++
  overrides.filterMap (fun kv => if kv.1 = n then kv.2 else none) ++
  (if n = "" then [] else additions.filter (fun s => decide (s.name = n)))

/-- The position of the first occurrence of `n`. -/
def idxOfName (n : String) : List String → Option Nat
  | [] => none
  | x :: xs => if x = n then some 0 else (idxOfName n xs).map (· + 1)

/-- The merge-loop state invariant: names are duplicate-free, the index
maps each name to the position of its unique entry, and every entry is the
most recent write for its name. -/
def MergeInv (st : MergeState) (ops : List MergeOp) : Prop :=
  (st.ordered.map Strategy.name).Nodup ∧
  (∀ n, alistGet st.index n = idxOfName n (st.ordered.map Strategy.name)) ∧
  (∀ s ∈ st.ordered, (opsWrites ops s.name).getLast? = some s)

/-- A cached preflight report whose only WAF hit is header-derived: the
`X-Amz-Cf-Id` header matches the `"cloudfront"` signature, and neither the
preflight body nor the rendered page carries any HTML marker. -/
def cachedCloudfrontReport : ReconReport :=
  preflight_recon_async "https://x.example" maxHtmlBytes
    (.ok [("X-Amz-Cf-Id", "abc")] "<html><body>ok</body></html>")

/-! # Theorems -/

/-! ## Shared helper lemmas -/

theorem mem_insertSorted {a s : String} {l : List String} :
    a ∈ insertSorted s l ↔ a = s ∨ a ∈ l := by
  induction l with
  | nil => simp [insertSorted]
  | cons x xs ih =>
      simp only [insertSorted]
      split
      · simp
      · simp [ih]
        tauto

theorem mem_sortStrings {a : String} {l : List String} :
    a ∈ sortStrings l ↔ a ∈ l := by
  induction l with
  | nil => simp [sortStrings]
  | cons x xs ih => simp [sortStrings, mem_insertSorted, ih]

theorem mem_dedupKeepFirst {a : String} :
    ∀ {seen l : List String},
      a ∈ dedupKeepFirst seen l ↔ a ∈ l ∧ ¬ a ∈ seen := by
  intro seen l
  induction l generalizing seen with
  | nil => simp [dedupKeepFirst]
  | cons x xs ih =>
      simp only [dedupKeepFirst]
      by_cases hx : x ∈ seen
      · rw [if_pos (by simpa using hx)]
        rw [ih]
        simp only [List.mem_cons]
        constructor
        · rintro ⟨h1, h2⟩
          exact ⟨Or.inr h1, h2⟩
        · rintro ⟨rfl | h1, h2⟩
          · exact absurd hx h2
          · exact ⟨h1, h2⟩
      · rw [if_neg (by simpa using hx)]
        simp only [List.mem_cons, ih]
        constructor
        · rintro (rfl | ⟨h1, h2⟩)
          · exact ⟨Or.inl rfl, hx⟩
          · exact ⟨Or.inr h1, fun hc => h2 (Or.inr hc)⟩
        · rintro ⟨rfl | h1, h2⟩
          · exact Or.inl rfl
          · by_cases hax : a = x
            · exact Or.inl hax
            · exact Or.inr ⟨h1, fun hc => hc.elim hax h2⟩

theorem mem_sortedSet {a : String} {l : List String} :
    a ∈ sortedSet l ↔ a ∈ l := by
  simp [sortedSet, mem_sortStrings, mem_dedupKeepFirst]

theorem tableHits_eq_nil {blob : String} {table : List (String × List String)}
    (h : ∀ e ∈ table, containsAnyMarker blob e.2 = false) :
    tableHits blob table = [] := by
  rw [tableHits, List.filterMap_eq_nil_iff]
  intro e he
  simp [h e he]

theorem mem_tableHits_of_marker {blob name : String}
    {markers : List String} {table : List (String × List String)}
    (he : (name, markers) ∈ table)
    (hm : containsAnyMarker blob markers = true) :
    name ∈ tableHits blob table := by
  induction table with
  | nil => exact absurd he (List.not_mem_nil _)
  | cons e rest ih =>
      rcases List.mem_cons.mp he with he1 | he2
      · rw [tableHits, List.filterMap_cons, ← he1]
        simp [hm]
      · have hrest := ih he2
        rw [tableHits, List.filterMap_cons]
        rw [tableHits] at hrest
        split
        · exact hrest
        · exact List.mem_cons_of_mem _ hrest

/-! ## Claim theorems -/

/-- C2 counterexample: on defaults `[A, B]`, overrides
`{A: removal, C: X}`, additions `[B2]` with `B2` named `"B"`,
`merge_strategies` does not return `[B, X, B2]`: the addition replaces `B`
in place, it is not also appended. -/
theorem merge_example_not_three_entries :
    merge_strategies [⟨1, "A"⟩, ⟨2, "B"⟩] [("A", none), ("C", some ⟨3, "C"⟩)]
      [⟨4, "B"⟩] ≠ [⟨2, "B"⟩, ⟨3, "C"⟩, ⟨4, "B"⟩] := by decide

/-- C2 amended: the call returns `[B2, X]` — removal-by-null drops `A`,
the override appends `X` under key `C`, and `B2` replaces `B` at `B`'s
original position (position 0). -/
theorem merge_example_result :
    merge_strategies [⟨1, "A"⟩, ⟨2, "B"⟩] [("A", none), ("C", some ⟨3, "C"⟩)]
      [⟨4, "B"⟩] = [⟨4, "B"⟩, ⟨3, "C"⟩] := by decide

/-- C3: `BrowserConfig` declares no `strategy_overrides` field, so the
strategy-merge step of `BrowserManager.launch` / `AsyncBrowserManager.launch`
raises `AttributeError` for every configuration instead of applying an
override map. -/
theorem launch_reads_missing_strategy_overrides :
    configFieldNames.contains "strategy_overrides" = false ∧
    ∀ c : BrowserConfig,
      launch_strategies c = .error (.attributeError "strategy_overrides") :=
  ⟨by decide, fun _ => rfl⟩

/-- C4: with a target present, a cached preflight report whose WAF hit set
is `["cloudfront"]` (header-derived; `"cloudfront"` has no same-named
sibling strategy and no registered handler), and a rendered page whose
HTML matches no marker, `ReconStrategy.after_navigation` completes without
closing the browser and without raising: the loop iterates over the
live-HTML hits only, so the union with the cached report is never
consulted for dispatch. -/
theorem after_navigation_ignores_cached_hits :
    cachedCloudfrontReport.wafHits = ["cloudfront"] ∧
    detect_waf [] "<html><body>hello</body></html>" = [] ∧
    strategy_already_registered default_strategies 0 "cloudfront" = false ∧
    (["perimeterx"] : List String).contains "cloudfront" = false ∧
    after_navigation_core (some "T1") cachedCloudfrontReport
      (some "<html><body>hello</body></html>") default_strategies 0
      ["perimeterx"] [] = .ran .ok (some .ok) := by
  refine ⟨by decide, by decide, by decide, by decide, by decide⟩

/-- C5 counterexample: the single header `X-Amz-Cf-Id: abc` with empty
HTML does not put `"cloudflare"` in the WAF hit set — `x-amz-cf-id` is a
marker of the `"cloudfront"` table entry. -/
theorem detect_waf_header_not_cloudflare :
    ¬ "cloudflare" ∈ detect_waf [("X-Amz-Cf-Id", "abc")] "" := by decide

/-- C5 amended: detection is case-insensitive and substring-based — the
header `X-Amz-Cf-Id: abc` with empty HTML yields exactly `["cloudfront"]`
(not `"cloudflare"`); empty headers with an HTML sample containing the
word `Cloudflare` yield a hit set containing `"cloudflare"`; and a
headers/HTML pair matching no marker of any table entry yields the empty
set. -/
theorem detect_waf_cases (html unrelatedHtml : String)
    (unrelatedHeaders : List (String × String))
    (hcf : strContains (pyLower html) "cloudflare" = true)
    (hH : ∀ e ∈ wafHeaderMarkers,
      containsAnyMarker (headerBlobOf (pyLowerHeaderDict unrelatedHeaders)) e.2 = false)
    (hB : ∀ e ∈ wafHtmlMarkers,
      containsAnyMarker (pyLower unrelatedHtml) e.2 = false) :
    detect_waf [("X-Amz-Cf-Id", "abc")] "" = ["cloudfront"] ∧
    "cloudflare" ∈ detect_waf [] html ∧
    detect_waf unrelatedHeaders unrelatedHtml = [] := by
  refine ⟨by decide, ?_, ?_⟩
  · simp only [detect_waf]
    rw [mem_sortedSet, List.mem_append]
    refine Or.inr (@mem_tableHits_of_marker (pyLower html) "cloudflare"
      ["cf-browser-verification", "cloudflare", "/cdn-cgi/"] wafHtmlMarkers
      (by decide) ?_)
    simp only [containsAnyMarker, List.any_cons, List.any_nil, hcf]
    simp
  · simp only [detect_waf]
    rw [tableHits_eq_nil hH, tableHits_eq_nil hB]
    decide

/-- C5 witness: the amended theorem applied at `<p>Cloudflare</p>` and at
an unrelated header/HTML pair. -/
theorem detect_waf_cases_witness :
    strContains (pyLower "<p>Cloudflare</p>") "cloudflare" = true ∧
    (detect_waf [("X-Amz-Cf-Id", "abc")] "" = ["cloudfront"] ∧
     "cloudflare" ∈ detect_waf [] "<p>Cloudflare</p>" ∧
     detect_waf [("Content-Type", "text/plain")] "<p>plain text</p>" = []) :=
  ⟨by decide,
   detect_waf_cases "<p>Cloudflare</p>" "<p>plain text</p>"
     [("Content-Type", "text/plain")] (by decide) (by decide) (by decide)⟩

/-- C6: the caller-supplied profile directory `/tmp/../home/attacker`
passes the string-prefix sandbox check and is returned unchanged, yet
after resolving its `..` component it lies outside the `/tmp` base
directory; the generated directory, by contrast, stays under the base. -/
theorem profile_dir_escapes_base :
    resolve_profile_dir (some "/tmp/../home/attacker") "abcd1234"
      = "/tmp/../home/attacker" ∧
    staysUnderProfileBase "/tmp/../home/attacker" = false ∧
    staysUnderProfileBase (resolve_profile_dir none "abcd1234") = true := by
  refine ⟨by decide, by decide, by decide⟩

/-- C9 counterexample: a transport failure that interrupts the body read
after the response headers arrived (`await response.text()` raising inside
the `try` block) yields a report whose headers are the received ones, not
empty. -/
theorem preflight_body_failure_keeps_headers :
    (preflight_recon_async "https://example.com" maxHtmlBytes
      (.bodyFail [("Server", "nginx")])).headers ≠ [] := by decide

/-- C9 amended: no transport failure propagates; the HTML sample is empty
in both failure shapes; the headers are empty exactly when the failure
precedes header receipt, else the lowercased received headers; and the
classification sets are computed over the captured headers and the empty
sample. -/
theorem preflight_transport_failure_report :
    ∀ (url : String) (hs : List (String × String)),
      preflight_recon_async url maxHtmlBytes .connectFail =
        { url := url, headers := [], htmlSample := ""
        , wafHits := detect_waf [] ""
        , techHits := detect_tech [] ""
        , captchaHits := detect_captcha [] "" } ∧
      preflight_recon_async url maxHtmlBytes (.bodyFail hs) =
        { url := url, headers := pyLowerHeaderDict hs, htmlSample := ""
        , wafHits := detect_waf (pyLowerHeaderDict hs) ""
        , techHits := detect_tech (pyLowerHeaderDict hs) ""
        , captchaHits := detect_captcha (pyLowerHeaderDict hs) "" } :=
  fun _ _ => ⟨rfl, rfl⟩

theorem send_cdp_command_on_ws_ok_id {frames : List (Option Frame)}
    {mid : Int} {m : String} {r : Json} {mid' : Int}
    {fs' : List (Option Frame)}
    (h : send_cdp_command_on_ws frames mid m = .ok (r, mid', fs')) :
    mid' = mid + 1 := by
  unfold send_cdp_command_on_ws at h
  cases hr : recvMatching mid frames with
  | error e => rw [hr] at h; cases h
  | ok p =>
      obtain ⟨r0, rest⟩ := p
      rw [hr] at h
      cases h
      rfl

theorem runSession_sent_ids (ms : List String) :
    ∀ (frames : List (Option Frame)) (mid : Int),
      (runSession frames mid ms).1.map Prod.fst =
        consecutiveFrom mid (runSession frames mid ms).1.length := by
  induction ms with
  | nil => intro frames mid; rfl
  | cons m ms ih =>
      intro frames mid
      simp only [runSession]
      cases h : send_cdp_command_on_ws frames mid m with
      | error e => simp [consecutiveFrom]
      | ok v =>
          obtain ⟨r, mid', frames'⟩ := v
          have hmid : mid' = mid + 1 := send_cdp_command_on_ws_ok_id h
          simp only [List.map_cons, List.length_cons, consecutiveFrom]
          rw [ih frames' mid', hmid]

theorem replyOf_eq_first_match (mid : Int) (method : String) :
    ∀ frames : List (Option Frame),
      replyOf frames mid method =
        match (frames.filterMap (fun x => x)).find?
            (fun f => decide (f.idField = some mid)) with
        | none => .error .timeout
        | some f =>
            match f.errorField with
            | some e => .error (.protocolError e)
            | none => .ok (f.resultField.getD (Json.obj [])) := by
  intro frames
  induction frames with
  | nil => rfl
  | cons rf rest ih =>
      cases rf with
      | none =>
          simpa [replyOf, send_cdp_command_on_ws, recvMatching,
            List.filterMap_cons] using ih
      | some f =>
          by_cases hid : f.idField = some mid
          · simp only [replyOf, send_cdp_command_on_ws, recvMatching,
              List.filterMap_cons, if_pos hid]
            rw [List.find?_cons_of_pos _ (by simpa using hid)]
            cases hf : f.errorField <;> simp [hf]
          · simp only [replyOf, send_cdp_command_on_ws, recvMatching,
              List.filterMap_cons, if_neg hid]
            rw [List.find?_cons_of_neg _ (by simpa using hid)]
            simpa [replyOf, send_cdp_command_on_ws] using ih

/-- C8: on any incoming frame sequence a CDP command send returns exactly
the verdict of the first frame whose `id` equals the request id — every
frame with a different or absent `id` (events, stale replies) and every
empty raw is discarded; a matching frame with an `error` member fails with
a protocol error, a matching frame without a `result` member yields the
empty object, and an exhausted sequence is a timeout.  Moreover the
envelope ids a socket session sends start at 1 and increase by exactly 1
per command. -/
theorem cdp_reply_matching_and_ids :
    (∀ (frames : List (Option Frame)) (mid : Int) (method : String),
       replyOf frames mid method =
         match (frames.filterMap (fun x => x)).find?
             (fun f => decide (f.idField = some mid)) with
         | none => .error .timeout
         | some f =>
             match f.errorField with
             | some e => .error (.protocolError e)
             | none => .ok (f.resultField.getD (Json.obj []))) ∧
    (∀ (frames : List (Option Frame)) (ms : List String),
       (runSession frames 1 ms).1.map Prod.fst =
         consecutiveFrom 1 (runSession frames 1 ms).1.length) :=
  ⟨fun frames mid method => replyOf_eq_first_match mid method frames,
   fun frames ms => runSession_sent_ids ms frames 1⟩

theorem goto_sync_eq (env : CdpEnv) (url : String) (h : url ≠ "") :
    goto_sync env url =
      ((if env.processRunning then [] else [Event.spawnProcess]),
       .error (.attributeError "STARTUP_TIMEOUT_SECONDS")) := by
  have h1 : settingsHasAttr "STARTUP_TIMEOUT_SECONDS" = false := by decide
  cases hp : env.processRunning <;>
    simp [goto_sync, gotoTrace, thenRun, startTrace, wait_for_cdp_sync, h1, h, hp]

theorem goto_async_eq (env : CdpEnv) (url : String) (h : url ≠ "") :
    goto_async env url =
      ((if env.processRunning then [] else [Event.spawnProcess]),
       .error (.attributeError "STARTUP_TIMEOUT_SECONDS")) := by
  have h1 : settingsHasAttr "STARTUP_TIMEOUT_SECONDS" = false := by decide
  cases hp : env.processRunning <;>
    simp [goto_async, gotoTrace, thenRun, startTrace, wait_for_cdp_async, h1, h, hp]

theorem content_sync_eq (env : CdpEnv) (tid : String) (curUrl : Option String)
    (h : tid ≠ "") :
    content_sync env (some tid) curUrl =
      ((if env.processRunning then [] else [Event.spawnProcess]),
       .error (.attributeError "STARTUP_TIMEOUT_SECONDS")) := by
  have h1 : settingsHasAttr "STARTUP_TIMEOUT_SECONDS" = false := by decide
  cases hp : env.processRunning <;>
    simp [content_sync, thenRun, startTrace, wait_for_cdp_sync, h1, h, hp]

theorem content_async_eq (env : CdpEnv) (tid : String) (curUrl : Option String)
    (h : tid ≠ "") :
    content_async env (some tid) curUrl =
      ((if env.processRunning then [] else [Event.spawnProcess]),
       .error (.attributeError "STARTUP_TIMEOUT_SECONDS")) := by
  have h1 : settingsHasAttr "STARTUP_TIMEOUT_SECONDS" = false := by decide
  cases hp : env.processRunning <;>
    simp [content_async, thenRun, startTrace, wait_for_cdp_async, h1, h, hp]

theorem wsSend_not_mem_startEvents (env : CdpEnv) (i : Int) (m : String) :
    Event.wsSend i m ∉ (if env.processRunning then [] else [Event.spawnProcess]) := by
  cases hp : env.processRunning <;> simp

/-- C1: the settings module defines none of `STARTUP_TIMEOUT_SECONDS`,
`STARTUP_POLL_INTERVAL_SECONDS`, `PAGE_LOAD_TIMEOUT_SECONDS`,
`WEBSOCKET_TIMEOUT_SECONDS`, and for every instance environment and
non-empty URL (resp. current target) both bindings' `goto` and `content`
fail with `AttributeError` on the first of them, read by `_wait_for_cdp`,
before any CDP command envelope is sent. -/
theorem goto_content_missing_settings :
    (settingsHasAttr "STARTUP_TIMEOUT_SECONDS" = false ∧
     settingsHasAttr "STARTUP_POLL_INTERVAL_SECONDS" = false ∧
     settingsHasAttr "PAGE_LOAD_TIMEOUT_SECONDS" = false ∧
     settingsHasAttr "WEBSOCKET_TIMEOUT_SECONDS" = false) ∧
    (∀ (env : CdpEnv) (url : String), url ≠ "" →
       (goto_sync env url).2 = .error (.attributeError "STARTUP_TIMEOUT_SECONDS") ∧
       (goto_async env url).2 = .error (.attributeError "STARTUP_TIMEOUT_SECONDS") ∧
       ∀ (i : Int) (m : String),
         Event.wsSend i m ∉ (goto_sync env url).1 ∧
         Event.wsSend i m ∉ (goto_async env url).1) ∧
    (∀ (env : CdpEnv) (tid : String) (curUrl : Option String), tid ≠ "" →
       (content_sync env (some tid) curUrl).2
         = .error (.attributeError "STARTUP_TIMEOUT_SECONDS") ∧
       (content_async env (some tid) curUrl).2
         = .error (.attributeError "STARTUP_TIMEOUT_SECONDS") ∧
       ∀ (i : Int) (m : String),
         Event.wsSend i m ∉ (content_sync env (some tid) curUrl).1 ∧
         Event.wsSend i m ∉ (content_async env (some tid) curUrl).1) := by
  refine ⟨⟨by decide, by decide, by decide, by decide⟩, ?_, ?_⟩
  · intro env url hurl
    rw [goto_sync_eq env url hurl, goto_async_eq env url hurl]
    exact ⟨rfl, rfl, fun i m =>
      ⟨wsSend_not_mem_startEvents env i m, wsSend_not_mem_startEvents env i m⟩⟩
  · intro env tid curUrl htid
    rw [content_sync_eq env tid curUrl htid, content_async_eq env tid curUrl htid]
    exact ⟨rfl, rfl, fun i m =>
      ⟨wsSend_not_mem_startEvents env i m, wsSend_not_mem_startEvents env i m⟩⟩

/-- C1 witness: the theorem applied to a fresh default environment with
URL `https://example.com` and current target `T1`. -/
theorem goto_content_missing_settings_witness :
    (("https://example.com" : String) ≠ "" ∧ ("T1" : String) ≠ "") ∧
    (goto_sync {} "https://example.com").2
      = .error (.attributeError "STARTUP_TIMEOUT_SECONDS") ∧
    (goto_async {} "https://example.com").2
      = .error (.attributeError "STARTUP_TIMEOUT_SECONDS") ∧
    (content_sync {} (some "T1") none).2
      = .error (.attributeError "STARTUP_TIMEOUT_SECONDS") ∧
    (content_async {} (some "T1") none).2
      = .error (.attributeError "STARTUP_TIMEOUT_SECONDS") :=
  ⟨⟨by decide, by decide⟩,
   (goto_content_missing_settings.2.1 {} "https://example.com" (by decide)).1,
   (goto_content_missing_settings.2.1 {} "https://example.com" (by decide)).2.1,
   (goto_content_missing_settings.2.2 {} "T1" none (by decide)).1,
   (goto_content_missing_settings.2.2 {} "T1" none (by decide)).2.1⟩

/-- C10: `detect_captcha` never reads its `headers` parameter — only HTML
markers can produce a CAPTCHA hit, so any two header maps give identical
results on every sample. -/
theorem detect_captcha_ignores_headers :
    ∀ (h1 h2 : List (String × String)) (s : String),
      detect_captcha h1 s = detect_captcha h2 s :=
  fun _ _ _ => rfl

/-! ## Merge invariant machinery (C7) -/

theorem alistGet_alistInsert {α : Type} (l : List (String × α)) (k : String)
    (v : α) (n : String) :
    alistGet (alistInsert l k v) n = if k = n then some v else alistGet l n := by
  induction l with
  | nil => rfl
  | cons p rest ih =>
      obtain ⟨k', v'⟩ := p
      by_cases hk : k' = k
      · subst hk
        simp only [alistInsert, if_pos rfl]
        by_cases hn : k' = n <;> simp [alistGet, hn]
      · simp only [alistInsert, if_neg hk]
        by_cases hn : k' = n
        · subst hn
          have : ¬ k = k' := fun hc => hk hc.symm
          simp [alistGet, this]
        · simp [alistGet, hn, ih]

theorem idxOfName_eq_none_iff {n : String} {l : List String} :
    idxOfName n l = none ↔ ¬ n ∈ l := by
  induction l with
  | nil => simp [idxOfName]
  | cons x xs ih =>
      by_cases hx : x = n
      · simp [idxOfName, hx]
      · simp only [idxOfName, if_neg hx, List.mem_cons, Option.map_eq_none',
          ih]
        constructor
        · rintro h (rfl | hc)
          · exact hx rfl
          · exact h hc
        · intro h hc
          exact h (Or.inr hc)

theorem idxOfName_some_get {n : String} :
    ∀ {l : List String} {i : Nat}, idxOfName n l = some i →
      ∃ h : i < l.length, l.get ⟨i, h⟩ = n := by
  intro l
  induction l with
  | nil => intro i h; cases h
  | cons x xs ih =>
      intro i h
      by_cases hx : x = n
      · rw [idxOfName, if_pos hx] at h
        cases h
        exact ⟨by simp, hx⟩
      · rw [idxOfName, if_neg hx] at h
        rcases hj : idxOfName n xs with _ | j
        · rw [hj] at h; cases h
        · rw [hj] at h
          cases h
          obtain ⟨hlt, hget⟩ := ih hj
          exact ⟨by simpa using Nat.succ_lt_succ hlt, hget⟩

theorem idxOfName_append_self {n : String} {l : List String}
    (h : ¬ n ∈ l) : idxOfName n (l ++ [n]) = some l.length := by
  induction l with
  | nil => simp [idxOfName]
  | cons x xs ih =>
      have hx : x ≠ n := fun hc => h (hc ▸ List.mem_cons_self x xs)
      rw [List.cons_append, idxOfName, if_neg hx,
        ih (fun hc => h (List.mem_cons_of_mem x hc))]
      rfl

theorem idxOfName_append_ne {m n : String} {l : List String}
    (h : m ≠ n) : idxOfName m (l ++ [n]) = idxOfName m l := by
  induction l with
  | nil =>
      have : n ≠ m := fun hc => h hc.symm
      simp [idxOfName, this]
  | cons x xs ih =>
      by_cases hx : x = m
      · simp [idxOfName, hx]
      · rw [List.cons_append, idxOfName, if_neg hx, ih, idxOfName, if_neg hx]

theorem set_get_self {α : Type} :
    ∀ (l : List α) (i : Nat) (a : α), l.get? i = some a → l.set i a = l := by
  intro l
  induction l with
  | nil => intro i a h; cases h
  | cons x xs ih =>
      intro i a h
      cases i with
      | zero =>
          cases h
          rfl
      | succ j =>
          show x :: xs.set j a = x :: xs
          rw [ih j a (by simpa using h)]

theorem map_eraseIdx {α β : Type} (f : α → β) :
    ∀ (l : List α) (i : Nat), (l.eraseIdx i).map f = (l.map f).eraseIdx i := by
  intro l
  induction l with
  | nil => intro i; rfl
  | cons x xs ih =>
      intro i
      cases i with
      | zero => rfl
      | succ j => simp [List.eraseIdx, ih]

theorem alistGet_buildIndexFrom :
    ∀ (l : List Strategy), (l.map Strategy.name).Nodup →
      ∀ (start : Nat) (n : String),
        alistGet (buildIndexFrom start l) n =
          (idxOfName n (l.map Strategy.name)).map (· + start) := by
  intro l
  induction l with
  | nil => intro _ start n; rfl
  | cons s rest ih =>
      intro hnd start n
      have hnd' : (rest.map Strategy.name).Nodup := (List.nodup_cons.mp hnd).2
      have hnotin : ¬ s.name ∈ rest.map Strategy.name := (List.nodup_cons.mp hnd).1
      have hself : alistGet (buildIndexFrom (start + 1) rest) s.name = none := by
        rw [ih hnd' (start + 1) s.name, idxOfName_eq_none_iff.mpr hnotin]
        rfl
      rw [buildIndexFrom]
      simp only [hself]
      by_cases hn : s.name = n
      · subst hn
        simp [alistGet, idxOfName]
      · simp only [alistGet, if_neg hn, List.map_cons, idxOfName, if_neg hn]
        rw [ih hnd' (start + 1) n]
        cases idxOfName n (rest.map Strategy.name) with
        | none => rfl
        | some j =>
            simp only [Option.map_some']
            congr 1
            omega

theorem opsWrites_append (o1 o2 : List MergeOp) (n : String) :
    opsWrites (o1 ++ o2) n = opsWrites o1 n ++ opsWrites o2 n := by
  simp [opsWrites, List.filterMap_append]

theorem opsWrites_single_write (n : String) (s : Strategy) :
    opsWrites [.write s] n = if s.name = n then [s] else [] := by
  by_cases h : s.name = n <;> simp [opsWrites, h]

theorem opsWrites_single_del (n k : String) : opsWrites [.del k] n = [] := rfl

/-- In a list of strategies with duplicate-free names, an element is
determined by its name. -/
theorem strategy_eq_of_name_eq {l : List Strategy}
    (hnd : (l.map Strategy.name).Nodup) {t u : Strategy}
    (ht : t ∈ l) (hu : u ∈ l) (hn : t.name = u.name) : t = u := by
  obtain ⟨⟨i, hi⟩, hti⟩ := List.mem_iff_get.mp ht
  obtain ⟨⟨j, hj⟩, huj⟩ := List.mem_iff_get.mp hu
  have hi2 : i < (l.map Strategy.name).length := by simpa using hi
  have hj2 : j < (l.map Strategy.name).length := by simpa using hj
  have hmi : (l.map Strategy.name).get ⟨i, hi2⟩ = t.name := by
    rw [List.get_map]
    exact congrArg Strategy.name hti
  have hmj : (l.map Strategy.name).get ⟨j, hj2⟩ = u.name := by
    rw [List.get_map]
    exact congrArg Strategy.name huj
  have hij : (⟨i, hi2⟩ : Fin (l.map Strategy.name).length) = ⟨j, hj2⟩ :=
    hnd.get_inj_iff.mp (by rw [hmi, hmj, hn])
  have hij2 : i = j := by simpa using congrArg Fin.val hij
  subst hij2
  rw [← hti, ← huj]

theorem mergeInv_opStep {st : MergeState} {ops : List MergeOp} (op : MergeOp)
    (h : MergeInv st ops) : MergeInv (opStep st op) (ops ++ [op]) := by
  obtain ⟨hnd, hidx, hlast⟩ := h
  cases op with
  | write s =>
      cases hg : alistGet st.index s.name with
      | some i =>
          have hi : idxOfName s.name (st.ordered.map Strategy.name) = some i := by
            rw [← hidx s.name, hg]
          obtain ⟨hlt, hget⟩ := idxOfName_some_get hi
          have hio : i < st.ordered.length := by simpa using hlt
          have hstep : opStep st (.write s) = ⟨st.ordered.set i s, st.index⟩ := by
            simp [opStep, hg]
          have hnames : (st.ordered.set i s).map Strategy.name
              = st.ordered.map Strategy.name := by
            rw [List.map_set]
            refine set_get_self _ i s.name ?_
            rw [List.get?_eq_get hlt, hget]
          have hnd' : ((st.ordered.set i s).map Strategy.name).Nodup := by
            rw [hnames]; exact hnd
          have hsmem : s ∈ st.ordered.set i s := by
            refine List.mem_iff_getElem.mpr ⟨i, by simpa using hio, ?_⟩
            simp
          rw [hstep]
          refine ⟨hnd', ?_, ?_⟩
          · intro n
            show alistGet st.index n = _
            rw [hnames]
            exact hidx n
          · intro t ht
            by_cases hts : t.name = s.name
            · have : t = s := strategy_eq_of_name_eq hnd' ht hsmem hts
              subst this
              rw [opsWrites_append, opsWrites_single_write, if_pos hts.symm]
              exact List.getLast?_concat _
            · have htl : t ∈ st.ordered := by
                rcases List.mem_or_eq_of_mem_set ht with h1 | h1
                · exact h1
                · exact absurd (by rw [h1]) hts
              rw [opsWrites_append, opsWrites_single_write,
                if_neg (fun hc => hts hc.symm)]
              simpa using hlast t htl
      | none =>
          have hnotin : ¬ s.name ∈ st.ordered.map Strategy.name := by
            rw [← idxOfName_eq_none_iff, ← hidx s.name, hg]
          have hstep : opStep st (.write s)
              = ⟨st.ordered ++ [s],
                 alistInsert st.index s.name st.ordered.length⟩ := by
            simp [opStep, hg]
          rw [hstep]
          refine ⟨?_, ?_, ?_⟩
          · show ((st.ordered ++ [s]).map Strategy.name).Nodup
            rw [List.map_append, List.nodup_append]
            refine ⟨hnd, List.nodup_singleton _, ?_⟩
            intro a ha hc
            rcases List.mem_singleton.mp hc with rfl
            exact hnotin ha
          · intro n
            show alistGet (alistInsert st.index s.name st.ordered.length) n = _
            rw [alistGet_alistInsert, List.map_append]
            simp only [List.map_cons, List.map_nil]
            by_cases hn : s.name = n
            · subst hn
              rw [if_pos rfl, idxOfName_append_self hnotin, List.length_map]
            · rw [if_neg hn, idxOfName_append_ne (fun hc => hn hc.symm)]
              exact hidx n
          · intro t ht
            rcases List.mem_append.mp ht with h1 | h1
            · have htn : t.name ≠ s.name := fun hc =>
                hnotin (hc ▸ List.mem_map_of_mem Strategy.name h1)
              rw [opsWrites_append, opsWrites_single_write,
                if_neg (fun hc => htn hc.symm)]
              simpa using hlast t h1
            · rcases List.mem_singleton.mp h1 with rfl
              rw [opsWrites_append, opsWrites_single_write, if_pos rfl]
              exact List.getLast?_concat _
  | del k =>
      cases hg : alistGet st.index k with
      | none =>
          have hstep : opStep st (.del k) = st := by simp [opStep, hg]
          rw [hstep]
          refine ⟨hnd, hidx, ?_⟩
          intro t ht
          rw [opsWrites_append, opsWrites_single_del]
          simpa using hlast t ht
      | some i =>
          have hstep : opStep st (.del k)
              = ⟨st.ordered.eraseIdx i, buildIndex (st.ordered.eraseIdx i)⟩ := by
            simp [opStep, hg]
          rw [hstep]
          have hnames : (st.ordered.eraseIdx i).map Strategy.name
              = (st.ordered.map Strategy.name).eraseIdx i :=
            map_eraseIdx _ _ _
          have hnd' : ((st.ordered.eraseIdx i).map Strategy.name).Nodup := by
            rw [hnames]
            exact (List.eraseIdx_sublist _ i).nodup hnd
          refine ⟨hnd', ?_, ?_⟩
          · intro n
            show alistGet (buildIndex (st.ordered.eraseIdx i)) n = _
            rw [buildIndex, alistGet_buildIndexFrom _ hnd' 0 n]
            cases idxOfName n ((st.ordered.eraseIdx i).map Strategy.name) <;> simp
          · intro t ht
            have htl : t ∈ st.ordered := (List.eraseIdx_sublist _ i).subset ht
            rw [opsWrites_append, opsWrites_single_del]
            simpa using hlast t htl

theorem mergeInv_foldl :
    ∀ (ops₂ : List MergeOp) (st : MergeState) (ops₁ : List MergeOp),
      MergeInv st ops₁ → MergeInv (ops₂.foldl opStep st) (ops₁ ++ ops₂) := by
  intro ops₂
  induction ops₂ with
  | nil => intro st ops₁ h; simpa using h
  | cons op rest ih =>
      intro st ops₁ h
      have h2 := mergeInv_opStep op h
      have h3 := ih (opStep st op) (ops₁ ++ [op]) h2
      simpa [List.append_assoc] using h3

theorem opsWrites_cons_write (s : Strategy) (ops : List MergeOp) (n : String) :
    opsWrites (.write s :: ops) n =
      if s.name = n then s :: opsWrites ops n else opsWrites ops n := by
  by_cases h : s.name = n <;> simp [opsWrites, h]

theorem opsWrites_cons_del (k : String) (ops : List MergeOp) (n : String) :
    opsWrites (.del k :: ops) n = opsWrites ops n := rfl

theorem addNamed_eq_opStep (st : MergeState) (s : Strategy) (h : ¬ s.name = "") :
    addNamed st s = opStep st (.write s) := by
  simp [addNamed, opStep, h]

theorem foldl_addNamed_eq (d : List Strategy) :
    ∀ st : MergeState,
      d.foldl addNamed st =
        (d.filterMap fun s =>
          if s.name = "" then none else some (MergeOp.write s)).foldl opStep st := by
  induction d with
  | nil => intro st; rfl
  | cons s rest ih =>
      intro st
      by_cases h : s.name = ""
      · have hskip : addNamed st s = st := by simp [addNamed, h]
        simp [List.filterMap_cons, h, hskip, ih]
      · simp [List.filterMap_cons, h, addNamed_eq_opStep st s h, ih]

theorem applyOverride_eq_opStep (st : MergeState) (kv : String × Option Strategy)
    (h : ∀ s : Strategy, kv.2 = some s → s.name = kv.1) :
    applyOverride st kv =
      opStep st
        (match kv.2 with
         | some s => MergeOp.write s
         | none => MergeOp.del kv.1) := by
  obtain ⟨k, v⟩ := kv
  cases v with
  | none => rfl
  | some s =>
      have hs : s.name = k := h s rfl
      simp [applyOverride, opStep, hs]

theorem foldl_applyOverride_eq (o : List (String × Option Strategy))
    (H : ∀ kv ∈ o, ∀ s : Strategy, kv.2 = some s → s.name = kv.1) :
    ∀ st : MergeState,
      o.foldl applyOverride st =
        (o.map fun kv =>
          match kv.2 with
          | some s => MergeOp.write s
          | none => MergeOp.del kv.1).foldl opStep st := by
  induction o with
  | nil => intro st; rfl
  | cons kv rest ih =>
      intro st
      simp only [List.foldl_cons, List.map_cons]
      rw [applyOverride_eq_opStep st kv (H kv (List.mem_cons_self _ _))]
      exact ih (fun kv' hm s hs => H kv' (List.mem_cons_of_mem _ hm) s hs) _

theorem merge_strategies_eq_foldOps (defaults : List Strategy)
    (overrides : List (String × Option Strategy)) (additions : List Strategy)
    (H : ∀ kv ∈ overrides, ∀ s : Strategy, kv.2 = some s → s.name = kv.1) :
    merge_strategies defaults overrides additions =
      ((opsOf defaults overrides additions).foldl opStep ⟨[], []⟩).ordered := by
  show (additions.foldl addNamed
    (overrides.foldl applyOverride (defaults.foldl addNamed ⟨[], []⟩))).ordered = _
  rw [opsOf, List.foldl_append, List.foldl_append]
  rw [foldl_addNamed_eq defaults, foldl_applyOverride_eq overrides H,
    foldl_addNamed_eq additions]

theorem opsWrites_defaults (d : List Strategy) (n : String) :
    opsWrites
        (d.filterMap fun s =>
          if s.name = "" then none else some (MergeOp.write s)) n =
      if n = "" then [] else d.filter (fun s => decide (s.name = n)) := by
  induction d with
  | nil => by_cases h : n = "" <;> simp [opsWrites, h]
  | cons s rest ih =>
      by_cases hs : s.name = ""
      · rw [List.filterMap_cons, if_pos hs, ih]
        by_cases hn : n = ""
        · simp [hn]
        · have : ¬ s.name = n := by rw [hs]; exact fun hc => hn hc.symm
          simp [hn, List.filter_cons, this]
      · rw [List.filterMap_cons, if_neg hs]
        rw [opsWrites_cons_write, ih]
        by_cases hsn : s.name = n
        · have hn : ¬ n = "" := fun hc => hs (hsn.trans hc)
          simp [hsn, hn, List.filter_cons]
        · by_cases hn : n = ""
          · simp [hsn, hn, hs]
          · simp [hsn, hn, List.filter_cons]

theorem opsWrites_overrides (o : List (String × Option Strategy)) (n : String)
    (H : ∀ kv ∈ o, ∀ s : Strategy, kv.2 = some s → s.name = kv.1) :
    opsWrites
        (o.map fun kv =>
          match kv.2 with
          | some s => MergeOp.write s
          | none => MergeOp.del kv.1) n =
      o.filterMap (fun kv => if kv.1 = n then kv.2 else none) := by
  induction o with
  | nil => rfl
  | cons kv rest ih =>
      obtain ⟨k, v⟩ := kv
      have Hrest : ∀ kv' ∈ rest, ∀ s : Strategy, kv'.2 = some s → s.name = kv'.1 :=
        fun kv' hm s hs => H kv' (List.mem_cons_of_mem _ hm) s hs
      cases v with
      | none =>
          simp only [List.map_cons]
          rw [opsWrites_cons_del, ih Hrest, List.filterMap_cons]
          by_cases hk : k = n <;> simp [hk]
      | some s =>
          have hs : s.name = k := H (k, some s) (List.mem_cons_self _ _) s rfl
          simp only [List.map_cons]
          rw [opsWrites_cons_write, ih Hrest, List.filterMap_cons]
          by_cases hk : k = n
          · rw [if_pos (hs.trans hk)]
            simp [hk]
          · rw [if_neg (fun hc => hk (hs ▸ hc))]
            simp [hk]

theorem writesFor_eq_opsWrites (defaults : List Strategy)
    (overrides : List (String × Option Strategy)) (additions : List Strategy)
    (n : String)
    (H : ∀ kv ∈ overrides, ∀ s : Strategy, kv.2 = some s → s.name = kv.1) :
    writesFor defaults overrides additions n =
      opsWrites (opsOf defaults overrides additions) n := by
  rw [opsOf, opsWrites_append, opsWrites_append]
  rw [opsWrites_defaults, opsWrites_overrides overrides n H, opsWrites_defaults]
  rfl

/-- C7 counterexample: an override binding whose key (`"b"`) differs from
the bound strategy's own name (`"a"`) is appended rather than replacing
the existing `"a"` entry, so the result carries two entries named `"a"` —
the names of the merged list are not pairwise distinct for arbitrary
override maps. -/
theorem merge_duplicate_names_counterexample :
    merge_strategies [⟨1, "a"⟩] [("b", some ⟨2, "a"⟩)] []
      = [⟨1, "a"⟩, ⟨2, "a"⟩] ∧
    ¬ ((merge_strategies [⟨1, "a"⟩] [("b", some ⟨2, "a"⟩)] []).map
        Strategy.name).Nodup := by
  refine ⟨by decide, by decide⟩

/-- C7 amended: when every override binding maps a name to a removal or to
a strategy carrying that same name, the merged list has pairwise-distinct
strategy names, and each entry is the last strategy written for its name
across defaults, overrides and additions. -/
theorem merge_names_unique_last_write (defaults : List Strategy)
    (overrides : List (String × Option Strategy)) (additions : List Strategy)
    (H : ∀ kv ∈ overrides, ∀ s : Strategy, kv.2 = some s → s.name = kv.1) :
    ((merge_strategies defaults overrides additions).map Strategy.name).Nodup ∧
    ∀ s ∈ merge_strategies defaults overrides additions,
      (writesFor defaults overrides additions s.name).getLast? = some s := by
  have hinit : MergeInv ⟨[], []⟩ [] :=
    ⟨List.nodup_nil, fun _ => rfl, fun s hs => absurd hs (List.not_mem_nil s)⟩
  have hall := mergeInv_foldl (opsOf defaults overrides additions) ⟨[], []⟩ [] hinit
  rw [List.nil_append] at hall
  obtain ⟨h1, _, h3⟩ := hall
  rw [merge_strategies_eq_foldOps defaults overrides additions H]
  refine ⟨h1, fun s hs => ?_⟩
  rw [writesFor_eq_opsWrites defaults overrides additions s.name H]
  exact h3 s hs

/-- C7 witness: the amended theorem at the spec's own merge example. -/
theorem merge_names_unique_last_write_witness :
    (((merge_strategies [⟨1, "A"⟩, ⟨2, "B"⟩]
        [("A", none), ("C", some ⟨3, "C"⟩)] [⟨4, "B"⟩]).map
        Strategy.name).Nodup ∧
     ∀ s ∈ merge_strategies [⟨1, "A"⟩, ⟨2, "B"⟩]
         [("A", none), ("C", some ⟨3, "C"⟩)] [⟨4, "B"⟩],
       (writesFor [⟨1, "A"⟩, ⟨2, "B"⟩] [("A", none), ("C", some ⟨3, "C"⟩)]
         [⟨4, "B"⟩] s.name).getLast? = some s) :=
  merge_names_unique_last_write _ _ _ (by
    intro kv hkv s hs
    rcases List.mem_cons.mp hkv with rfl | h
    · cases hs
    · rcases List.mem_cons.mp h with rfl | h2
      · cases hs
        rfl
      · exact absurd h2 (List.not_mem_nil _))

end Spectrum
